import Mathlib

/-
  Verification of the retrieval-grounded QA/hallucination-validation subsystem
  and its vector index abstraction.

  The development shallowly embeds:
  - backend/services/qa_validator.py  (QAValidatorService)
  - backend/services/vector_store.py  (VectorStore, FAISS backend)

  Real numbers from the source (Python floats) are modelled as rationals;
  Python dictionaries become structures with Option fields where a key may be
  absent; exceptions become explicit failure values mirroring the try/except
  blocks of the source.
-/

namespace PolicyQA

/-! ## Sentence splitting (QAValidatorService._split_into_sentences)

The source splits on the regular expression [.!?]+\s+ (one or more sentence
terminators followed by at least one whitespace character), strips each piece
and drops empty pieces.  Because the two character classes are disjoint, a
match of the pattern occurs exactly at a maximal run of terminator characters
that is immediately followed by a whitespace character; the run and the
following whitespace run are consumed as the delimiter. -/

def isSentTerm (c : Char) : Bool :=
  c = '.' || c = '!' || c = '?'

/-- ASCII whitespace as matched by the \s class of the source's pattern. -/
def isWs (c : Char) : Bool :=
  c = ' ' || c = '\t' || c = '\n' || c = '\r' || c = '\x0b' || c = '\x0c'

/-- Scanner state of the splitter: accumulating a piece (`norm`, the piece so
far held reversed), inside a terminator run that may yet become a delimiter
(`punct`, run and piece held reversed), or consuming the whitespace run of a
delimiter just matched (`ws`). -/
inductive SplitMode where
  | norm (acc : List Char)
  | punct (run acc : List Char)
  | ws

/-- Core splitter: one left-to-right scan implementing non-overlapping
matches of the pattern.  A terminator run followed by whitespace is a
delimiter (run and whitespace both consumed); a terminator run not followed
by whitespace stays inside the current piece. -/
def splitScan : List Char → SplitMode → List (List Char)
  | [], .norm acc => [acc.reverse]
  | [], .punct run acc => [acc.reverse ++ run.reverse]
  | [], .ws => [[]]
  | c :: rest, .norm acc =>
    if isSentTerm c then splitScan rest (.punct [c] acc)
    else splitScan rest (.norm (c :: acc))
  | c :: rest, .punct run acc =>
    if isSentTerm c then splitScan rest (.punct (c :: run) acc)
    else if isWs c then acc.reverse :: splitScan rest .ws
    else splitScan rest (.norm (c :: (run ++ acc)))
  | c :: rest, .ws =>
    if isWs c then splitScan rest .ws
    else if isSentTerm c then splitScan rest (.punct [c] [])
    else splitScan rest (.norm [c])

/-- Python `str.strip()`: drop leading and trailing whitespace. -/
def pyStrip (s : String) : String :=
  String.mk (((s.data.dropWhile isWs).reverse.dropWhile isWs).reverse)

/-- Python slicing `s[:n]`: the first `n` characters. -/
def strTake (s : String) (n : Nat) : String :=
  String.mk (s.data.take n)

/-- `QAValidatorService._split_into_sentences`: regex split, then
`[s.strip() for s in sentences if s.strip()]`. -/
def split_into_sentences (text : String) : List String :=
  ((splitScan text.data (.norm [])).map (fun cs => pyStrip (String.mk cs))).filter
    (fun s => s ≠ "")

/-- A string ends with one of the sentence terminator characters. -/
def endsWithTerm (s : String) : Bool :=
  match s.data.getLast? with
  | some c => isSentTerm c
  | none => false

/-! ## Data model of the validator -/

/-- A search hit as returned by `VectorStore.search_similar`: the stored chunk
metadata merged with the similarity score and the raw distance. -/
structure SimChunk where
  document_id : String
  chunk_id : String
  chunk_index : Nat
  text : String
  text_length : Nat
  token_count : Nat
  similarity : ℚ
  distance : ℚ
deriving DecidableEq

/-- A per-sentence finding recorded by the sentence-level check. -/
structure SentenceIssue where
  sentence : String
  similarity : ℚ
  threshold : ℚ
deriving DecidableEq

/-- A hallucination issue.  The source builds two shapes of dictionary, one
per issue type; each constructor carries exactly the keys of its shape. -/
inductive Issue where
  | low_similarity (severity description : String)
      (threshold actual_similarity : ℚ)
  | sentence_level (severity description : String)
      (issues : List SentenceIssue)
deriving DecidableEq

/-- Entry of `top_similar_chunks` (chunk id, similarity, 200-char preview). -/
structure ChunkPreview where
  chunk_id : String
  similarity : ℚ
  text_preview : String
deriving DecidableEq

/-- Result dictionary of `QAValidatorService.validate_summary`.  Keys that are
present only on one of the return paths are Options. -/
structure ValidationResult where
  valid : Bool
  error : Option String
  overall_similarity : ℚ
  threshold : Option ℚ
  hallucinations : List Issue
  similar_chunks_count : Option Nat
  top_similar_chunks : List ChunkPreview
  summary_type : Option String
deriving DecidableEq

/-- The error-path dictionary: invalid, an error message, no hallucination
issues, zero similarity. -/
def errorResult (msg : String) : ValidationResult :=
  { valid := false
    error := some msg
    overall_similarity := 0
    threshold := none
    hallucinations := []
    similar_chunks_count := none
    top_similar_chunks := []
    summary_type := none }

def embFailMsg : String := "Failed to generate summary embedding"

def noChunksMsg : String := "No matching chunks found in document"

/-! ## String helpers -/

/-- `pat` is a prefix of `s` (over character lists). -/
def hasPrefixCh : List Char → List Char → Bool
  | [], _ => true
  | _ :: _, [] => false
  | a :: as, b :: bs => a = b && hasPrefixCh as bs

/-- `pat` occurs contiguously somewhere in `s` (over character lists). -/
def hasSubstrCh (pat : List Char) : List Char → Bool
  | [] => hasPrefixCh pat []
  | s@(_ :: rest) => hasPrefixCh pat s || hasSubstrCh pat rest

/-- `pat` occurs contiguously in `s` (the sense in which a description string
"includes" a value). -/
def strContains (s pat : String) : Bool :=
  hasSubstrCh pat.data s.data

/-- Fixed-point rendering with two decimal places, the shape produced by the
format specifier `:.2f` of the source (ties, which no statement below
exercises, are rounded here by `round` rather than half-to-even). -/
def formatFixed2 (q : ℚ) : String :=
  let n : ℤ := round (q * 100)
  let sign := if n < 0 then "-" else ""
  let m := n.natAbs
  let fp := m % 100
  sign ++ toString (m / 100) ++ "." ++
    (if fp < 10 then "0" ++ toString fp else toString fp)

/-! ## QAValidatorService.validate_summary -/

/-- Truthiness of the optional embedding, as tested by `if not embedding:` in
the source (None and the empty list are both falsy). -/
def embedFalsy : Option (List ℚ) → Bool
  | none => true
  | some [] => true
  | some (_ :: _) => false

/-- Description of a `low_similarity` issue: the similarity appears rounded to
two decimals; the threshold does not appear in the string (it is a separate
key of the issue dictionary). -/
def lowSimDesc (avg : ℚ) : String :=
  "Summary has low similarity (" ++ formatFixed2 avg ++ ") to original document"

/-- The `low_similarity` issue appended when the average similarity is below
the threshold. -/
def mkLowSimIssue (threshold avg : ℚ) : Issue :=
  Issue.low_similarity (if avg < 1/2 then "high" else "medium")
    (lowSimDesc avg) threshold avg

/-- The whole-summary check: one `low_similarity` issue when the average
similarity is below the threshold, nothing otherwise. -/
def lowSimIssues (threshold avg : ℚ) : List Issue :=
  if avg < threshold then [mkLowSimIssue threshold avg] else []

/-- Description of the `sentence_level` issue. -/
def sentLevelDesc (n : Nat) : String :=
  "Found " ++ toString n ++ " sentences with low similarity"

/-- The `sentence_level` issue appended when at least one sentence was
flagged; its `issues` list keeps at most the first 5 findings. -/
def sentenceLevelIssues (si : List SentenceIssue) : List Issue :=
  if si = [] then []
  else [Issue.sentence_level "medium" (sentLevelDesc si.length) (si.take 5)]

/-- Maximum of a similarity list with a first element (Python `max` on a
non-empty list). -/
def listMax (x : ℚ) (xs : List ℚ) : ℚ :=
  xs.foldl max x

/-- One iteration of the sentence loop: very short sentences are skipped, a
falsy sentence embedding is skipped, an empty sentence search result is
skipped; otherwise the sentence is flagged when the maximum neighbour
similarity is below the threshold. -/
def sentenceStep (embed : String → Option (List ℚ))
    (search : List ℚ → Nat → String → List SimChunk)
    (threshold : ℚ) (document_id : String)
    (acc : List SentenceIssue) (sentence : String) : List SentenceIssue :=
  if (pyStrip sentence).length < 20 then acc
  else
    match embed sentence with
    | none => acc
    | some [] => acc
    | some (e :: es) =>
      match search (e :: es) 3 document_id with
      | [] => acc
      | c :: cs =>
        let max_sim := listMax c.similarity (cs.map (fun x => x.similarity))
        if max_sim < threshold then
          acc ++ [{ sentence := strTake sentence 100
                    similarity := max_sim
                    threshold := threshold }]
        else acc

/-- The sentence-level loop of `validate_summary` over the first 10
sentences. -/
def sentenceIssuesFor (embed : String → Option (List ℚ))
    (search : List ℚ → Nat → String → List SimChunk)
    (threshold : ℚ) (document_id : String)
    (sentences : List String) : List SentenceIssue :=
  (sentences.take 10).foldl (sentenceStep embed search threshold document_id) []

/-- The scoring stage of `validate_summary`, reached once the whole-summary
embedding succeeded and the similarity search returned at least one chunk. -/
def scoreSummary (embed : String → Option (List ℚ))
    (search : List ℚ → Nat → String → List SimChunk)
    (similarity_threshold : ℚ) (document_id summary_text summary_type : String)
    (similar_chunks : List SimChunk) : ValidationResult :=
  let similarities := similar_chunks.map (fun c => c.similarity)
  let avg : ℚ := similarities.sum / (similarities.length : ℚ)
  let sentence_issues :=
    sentenceIssuesFor embed search similarity_threshold document_id
      (split_into_sentences summary_text)
  let hallucinations :=
    lowSimIssues similarity_threshold avg ++ sentenceLevelIssues sentence_issues
  { valid := decide (similarity_threshold ≤ avg) && hallucinations.isEmpty
    error := none
    overall_similarity := avg
    threshold := some similarity_threshold
    hallucinations := hallucinations
    similar_chunks_count := some similar_chunks.length
    top_similar_chunks :=
      (similar_chunks.take 3).map (fun c =>
        { chunk_id := c.chunk_id
          similarity := c.similarity
          text_preview := strTake c.text 200 })
    summary_type := some summary_type }

/-- `QAValidatorService.validate_summary`.  The embedder and the vector store
are the service's collaborators, passed as functions; `search emb k doc`
stands for `vector_store.search_similar(emb, top_k=k, document_id=doc)`. -/
def validate_summary (embed : String → Option (List ℚ))
    (search : List ℚ → Nat → String → List SimChunk)
    (similarity_threshold : ℚ)
    (document_id summary_text summary_type : String) : ValidationResult :=
  match embed summary_text with
  | none => errorResult embFailMsg
  | some [] => errorResult embFailMsg
  | some (e :: es) =>
    match search (e :: es) 10 document_id with
    | [] => errorResult noChunksMsg
    | c :: cs =>
      scoreSummary embed search similarity_threshold document_id summary_text
        summary_type (c :: cs)

/-! ## QAValidatorService.validate_all_summaries -/

/-- An element of the `sections` list; only its `summary` key is read. -/
structure SectionSummary where
  summary : String
deriving DecidableEq

/-- The `summaries` argument: each granularity key may be absent. -/
structure Summaries where
  overview : Option String
  bullets : Option (List String)
  sections : Option (List SectionSummary)
deriving DecidableEq

/-- The report returned by `validate_all_summaries`. -/
structure ValidationReport where
  document_id : String
  overview_validation : Option ValidationResult
  bullets_validation : Option ValidationResult
  sections_validation : Option ValidationResult
  overall_valid : Bool
deriving DecidableEq

/-- `QAValidatorService.validate_all_summaries`: validates each granularity
present in the input, combining bullets (all of them) and sections (first 5)
with newline separators, and clears `overall_valid` on each invalid result. -/
def validate_all_summaries (embed : String → Option (List ℚ))
    (search : List ℚ → Nat → String → List SimChunk)
    (similarity_threshold : ℚ)
    (document_id : String) (summaries : Summaries) : ValidationReport :=
  let ov := summaries.overview.map (fun t =>
    validate_summary embed search similarity_threshold document_id t "overview")
  let bu := summaries.bullets.map (fun bs =>
    validate_summary embed search similarity_threshold document_id
      (String.intercalate "\n" bs) "bullets")
  let se := summaries.sections.map (fun ss =>
    validate_summary embed search similarity_threshold document_id
      (String.intercalate "\n" ((ss.take 5).map (fun s => s.summary)))
      "sections")
  { document_id := document_id
    overview_validation := ov
    bullets_validation := bu
    sections_validation := se
    overall_valid :=
      (match ov with | none => true | some v => v.valid) &&
      (match bu with | none => true | some v => v.valid) &&
      (match se with | none => true | some v => v.valid) }

/-! ## VectorStore (FAISS backend)

The store keeps an `IndexFlatL2` (a flat list of vectors compared by squared
L2 distance, searched exactly) and a JSON sidecar mapping the string of each
dense position to the chunk metadata.  The metadata dictionary is modelled as
an association list whose lookup takes the most recent binding. -/

/-- Metadata stored for one index position by `_add_to_faiss`. -/
structure ChunkMeta where
  document_id : String
  chunk_id : String
  chunk_index : Nat
  text : String
  text_length : Nat
  token_count : Nat
deriving DecidableEq

/-- The in-process state of a FAISS-backed `VectorStore`. -/
structure FaissStore where
  dim : Nat
  vectors : List (List ℚ)
  metadata : List (Nat × ChunkMeta)
deriving DecidableEq

/-- `metadata.get(str(idx))`: a negative index never matches a stored key. -/
def lookupMeta (meta : List (Nat × ChunkMeta)) (idx : Int) : Option ChunkMeta :=
  if idx < 0 then none else meta.lookup idx.toNat

/-- Squared L2 distance, the metric of `IndexFlatL2`. -/
def sqDist (q v : List ℚ) : ℚ :=
  (List.zipWith (fun a b => (a - b) ^ 2) q v).sum

/-- `index.search(query, k)` on a flat L2 index: all stored vectors scored,
returned in ascending distance order (ties in an unspecified backend order;
a stable sort is one admissible choice), padded with label -1 when fewer
than `k` vectors exist (the sentinel distance of a padding slot is never
read). -/
def faissSearch (vectors : List (List ℚ)) (q : List ℚ) (k : Nat) :
    List (ℚ × Int) :=
  let scored := vectors.enum.map (fun p => (sqDist q p.2, (p.1 : Int)))
  let sorted := List.insertionSort (fun a b => a.1 ≤ b.1) scored
  let top := sorted.take k
  top ++ List.replicate (k - top.length) ((0 : ℚ), (-1 : Int))

/-- Truthiness of the `document_id` filter argument: `None` and the empty
string are falsy, so the filter clause is skipped for them. -/
def docFilterRejects (document_id : Option String) (meta_doc : String) : Bool :=
  match document_id with
  | none => false
  | some s => if s = "" then false else decide (meta_doc ≠ s)

/-- The result-collection loop of `_search_faiss`: skip padding slots,
positions without metadata and (when the filter argument is truthy) chunks of
other documents; convert distance to similarity by 1 / (1 + distance); stop
once `top_k` results were kept. -/
def collectResults (meta : List (Nat × ChunkMeta)) (document_id : Option String)
    (top_k : Nat) : List (ℚ × Int) → List SimChunk → List SimChunk
  | [], acc => acc.reverse
  | (dist, idx) :: rest, acc =>
    if idx = -1 then collectResults meta document_id top_k rest acc
    else
      match lookupMeta meta idx with
      | none => collectResults meta document_id top_k rest acc
      | some m =>
        if docFilterRejects document_id m.document_id then
          collectResults meta document_id top_k rest acc
        else
          let r : SimChunk :=
            { document_id := m.document_id
              chunk_id := m.chunk_id
              chunk_index := m.chunk_index
              text := m.text
              text_length := m.text_length
              token_count := m.token_count
              similarity := 1 / (1 + dist)
              distance := dist }
          let acc' := r :: acc
          if top_k ≤ acc'.length then acc'.reverse
          else collectResults meta document_id top_k rest acc'

/-- `VectorStore._search_faiss`: over-fetch `2 * top_k` nearest candidates,
then filter and convert.  A query of the wrong dimension makes the index
raise inside the try block, which the source converts to an empty result. -/
def searchFaiss (st : FaissStore) (q : List ℚ) (top_k : Nat)
    (document_id : Option String) : List SimChunk :=
  if q.length ≠ st.dim then []
  else collectResults st.metadata document_id top_k
    (faissSearch st.vectors q (top_k * 2)) []

/-- The same collection loop with no document filter, the behaviour the
filter-skipping branch is claimed to reduce to. -/
def collectResultsAll (meta : List (Nat × ChunkMeta))
    (top_k : Nat) : List (ℚ × Int) → List SimChunk → List SimChunk
  | [], acc => acc.reverse
  | (dist, idx) :: rest, acc =>
    if idx = -1 then collectResultsAll meta top_k rest acc
    else
      match lookupMeta meta idx with
      | none => collectResultsAll meta top_k rest acc
      | some m =>
        let r : SimChunk :=
          { document_id := m.document_id
            chunk_id := m.chunk_id
            chunk_index := m.chunk_index
            text := m.text
            text_length := m.text_length
            token_count := m.token_count
            similarity := 1 / (1 + dist)
            distance := dist }
        let acc' := r :: acc
        if top_k ≤ acc'.length then acc'.reverse
        else collectResultsAll meta top_k rest acc'

/-- `_search_faiss` with the document filter removed: the search unrestricted
by document, against which the falsy-filter calls are compared. -/
def searchFaissUnfiltered (st : FaissStore) (q : List ℚ) (top_k : Nat) :
    List SimChunk :=
  if q.length ≠ st.dim then []
  else collectResultsAll st.metadata top_k
    (faissSearch st.vectors q (top_k * 2)) []

/-! ## VectorStore.add_embeddings (FAISS backend) -/

/-- A chunk dictionary handed to `add_embeddings`.  `chunk_id` and `text` are
accessed by subscription (a missing key raises); the other keys are read with
`.get` and a default. -/
structure Chunk where
  chunk_id : Option String
  chunk_index : Option Nat
  text : Option String
  text_length : Option Nat
  token_count : Option Nat
deriving DecidableEq

/-- The metadata record built for chunk number `i` of a call, or `none` when
a required key is missing (the KeyError path). -/
def chunkMetaOf (document_id : String) (i : Nat) (c : Chunk) :
    Option ChunkMeta :=
  match c.chunk_id, c.text with
  | some cid, some txt =>
    some { document_id := document_id
           chunk_id := cid
           chunk_index := c.chunk_index.getD i
           text := txt
           text_length := c.text_length.getD txt.length
           token_count := c.token_count.getD 0 }
  | _, _ => none

/-- The metadata-recording loop of `_add_to_faiss`.  It runs after the
vectors were already added to the index; a missing required key aborts it
(the exception is caught and turned into a False return), leaving the
entries recorded so far in place. -/
def metaLoop (document_id : String) (start : Nat) :
    Nat → List Chunk → FaissStore → Bool × FaissStore
  | _, [], st => (true, st)
  | i, c :: rest, st =>
    match chunkMetaOf document_id i c with
    | none => (false, st)
    | some m =>
      metaLoop document_id start (i + 1) rest
        { st with metadata := (start + i, m) :: st.metadata }

/-- `VectorStore._add_to_faiss`.  An empty batch builds a 1-D array that the
index rejects; a ragged batch fails inside `np.array`; a batch of the wrong
width fails the index's dimension check — each before any state change.
Otherwise the vectors are appended and the metadata loop runs. -/
def add_to_faiss (st : FaissStore) (document_id : String)
    (chunks : List Chunk) (embeddings : List (List ℚ)) : Bool × FaissStore :=
  match embeddings with
  | [] => (false, st)
  | v :: rest =>
    if rest.any (fun w => w.length ≠ v.length) then (false, st)
    else if v.length ≠ st.dim then (false, st)
    else
      metaLoop document_id st.vectors.length 0 chunks
        { st with vectors := st.vectors ++ (v :: rest) }

def lenMismatchMsg : String := "Chunks and embeddings must have the same length"

/-- `VectorStore.add_embeddings` (FAISS branch): a length mismatch between
chunks and embeddings raises ValueError; otherwise `_add_to_faiss` reports
success as a boolean. -/
def add_embeddings (st : FaissStore) (document_id : String)
    (chunks : List Chunk) (embeddings : List (List ℚ)) :
    Except String (Bool × FaissStore) :=
  if chunks.length ≠ embeddings.length then Except.error lenMismatchMsg
  else Except.ok (add_to_faiss st document_id chunks embeddings)

/-! ## Concrete fixtures used by witnesses and counterexamples -/

/-- The sentence-splitting input of the spec's testable property. -/
def demoSentText : String :=
  "Policy covers fire damage. It excludes flood damage! What about wind?"

/-- An embedder that always succeeds with a 1-dimensional vector. -/
def embedOne : String → Option (List ℚ) := fun _ => some [1]

/-- An embedder whose provider call always fails. -/
def embedNone : String → Option (List ℚ) := fun _ => none

/-- A stored chunk returned with perfect similarity. -/
def chunkHigh : SimChunk :=
  { document_id := "doc-1", chunk_id := "c0", chunk_index := 0,
    text := "alpha", text_length := 5, token_count := 0,
    similarity := 1, distance := 0 }

/-- A store whose search always returns the perfectly similar chunk. -/
def searchHigh : List ℚ → Nat → String → List SimChunk := fun _ _ _ => [chunkHigh]

/-- A stored chunk returned with similarity 0.40. -/
def chunkLowA : SimChunk :=
  { document_id := "doc-1", chunk_id := "c1", chunk_index := 1,
    text := "beta", text_length := 4, token_count := 0,
    similarity := 2/5, distance := 3/2 }

/-- A stored chunk returned with similarity 0.44. -/
def chunkLowB : SimChunk :=
  { document_id := "doc-1", chunk_id := "c2", chunk_index := 2,
    text := "gamma", text_length := 5, token_count := 0,
    similarity := 11/25, distance := 14/11 }

/-- A store whose search always returns the two weakly similar chunks (their
mean similarity is 0.42). -/
def searchLow : List ℚ → Nat → String → List SimChunk :=
  fun _ _ _ => [chunkLowA, chunkLowB]

/-- A two-sentence summary whose sentences are both retained by the
sentence-level check. -/
def c10Text : String :=
  "First sentence is long enough here. Second sentence is also long enough."

/-- An embedder that succeeds on the whole summary but fails on each of its
sentences. -/
def embedSel : String → Option (List ℚ) :=
  fun s => if s = c10Text then some [1] else none

/-- An empty 2-dimensional FAISS store. -/
def stEmpty2 : FaissStore := { dim := 2, vectors := [], metadata := [] }

/-- A chunk dictionary with every required key present. -/
def chGood : Chunk :=
  { chunk_id := some "c0", chunk_index := some 0,
    text := some "alpha chunk text", text_length := none, token_count := none }

/-- A chunk dictionary missing the required `text` key: reading it raises
inside the metadata loop. -/
def chBad : Chunk :=
  { chunk_id := some "c1", chunk_index := none,
    text := none, text_length := none, token_count := none }

/-- The metadata record built from `chGood` at position 0. -/
def metaGood : ChunkMeta :=
  { document_id := "doc-1", chunk_id := "c0", chunk_index := 0,
    text := "alpha chunk text", text_length := 16, token_count := 0 }

/-- The partial state left by the failing insert of `[chGood, chBad]`: both
vectors were added, but only `chGood`'s metadata was recorded. -/
def st8 : FaissStore :=
  { dim := 2, vectors := [[1, 0], [0, 1]], metadata := [(0, metaGood)] }

/-- The state after a successful single-chunk insert into `stEmpty2`. -/
def stG : FaissStore :=
  { dim := 2, vectors := [[1, 0]], metadata := [(0, metaGood)] }

end PolicyQA

namespace PolicyQA

/-! ## Helper lemmas -/

lemma validate_summary_eq_score (embed : String → Option (List ℚ))
    (search : List ℚ → Nat → String → List SimChunk)
    (T : ℚ) (doc text ty : String) (e : ℚ) (es : List ℚ)
    (c : SimChunk) (cs : List SimChunk)
    (he : embed text = some (e :: es))
    (hs : search (e :: es) 10 doc = c :: cs) :
    validate_summary embed search T doc text ty =
      scoreSummary embed search T doc text ty (c :: cs) := by
  simp only [validate_summary, he, hs]

lemma score_overall (embed search T doc text ty L) :
    (scoreSummary embed search T doc text ty L).overall_similarity =
      (L.map (fun c : SimChunk => c.similarity)).sum / ((L.length : ℚ)) := by
  simp [scoreSummary]

lemma score_hallucinations (embed search T doc text ty L) :
    (scoreSummary embed search T doc text ty L).hallucinations =
      lowSimIssues T
          ((scoreSummary embed search T doc text ty L).overall_similarity) ++
        sentenceLevelIssues
          (sentenceIssuesFor embed search T doc (split_into_sentences text)) := by
  simp [scoreSummary]

lemma score_valid (embed search T doc text ty L) :
    (scoreSummary embed search T doc text ty L).valid =
      (decide
          (T ≤ (scoreSummary embed search T doc text ty L).overall_similarity) &&
        (scoreSummary embed search T doc text ty L).hallucinations.isEmpty) := by
  simp [scoreSummary]

lemma score_error (embed search T doc text ty L) :
    (scoreSummary embed search T doc text ty L).error = none := by
  simp [scoreSummary]

lemma errorResult_spec (msg : String) (hmsg : msg ≠ "") :
    (errorResult msg).valid = false ∧
    (∃ m, (errorResult msg).error = some m ∧ m ≠ "") ∧
    (errorResult msg).hallucinations = [] :=
  ⟨rfl, ⟨msg, rfl, hmsg⟩, rfl⟩

lemma hasPrefixCh_append (p s : List Char) : hasPrefixCh p (p ++ s) = true := by
  induction p with
  | nil => rfl
  | cons a as ih => simp [hasPrefixCh, ih]

lemma hasSubstrCh_of_prefix (p s : List Char) (h : hasPrefixCh p s = true) :
    hasSubstrCh p s = true := by
  cases s with
  | nil =>
    rw [show hasSubstrCh p [] = hasPrefixCh p [] from rfl]
    exact h
  | cons x xs => simp [hasSubstrCh, h]

lemma hasSubstrCh_middle (a p c : List Char) :
    hasSubstrCh p (a ++ (p ++ c)) = true := by
  induction a with
  | nil =>
    rw [List.nil_append]
    exact hasSubstrCh_of_prefix p (p ++ c) (hasPrefixCh_append p c)
  | cons y ys ih =>
    simp [hasSubstrCh, ih]

lemma strContains_middle (a b c : String) :
    strContains (a ++ b ++ c) b = true := by
  simp only [strContains, String.data_append, List.append_assoc]
  exact hasSubstrCh_middle a.data b.data c.data

lemma lowSimDesc_contains (avg : ℚ) :
    strContains (lowSimDesc avg) (formatFixed2 avg) = true := by
  have h : lowSimDesc avg =
      "Summary has low similarity (" ++ formatFixed2 avg ++
        ") to original document" := rfl
  rw [h]
  exact strContains_middle _ _ _

lemma sentenceStep_skip (embed : String → Option (List ℚ))
    (search : List ℚ → Nat → String → List SimChunk)
    (T : ℚ) (doc : String) (acc : List SentenceIssue) (s : String)
    (h : 20 ≤ (pyStrip s).length →
      (embedFalsy (embed s) = true ∨
        ∀ l, embed s = some l → search l 3 doc = [])) :
    sentenceStep embed search T doc acc s = acc := by
  unfold sentenceStep
  by_cases hlen : (pyStrip s).length < 20
  · simp [hlen]
  · have hp := h (by omega)
    cases hembed : embed s with
    | none => simp [hembed]
    | some l =>
      cases l with
      | nil => simp [hembed]
      | cons e es =>
        rcases hp with hf | hs
        · rw [hembed] at hf; simp [embedFalsy] at hf
        · have := hs (e :: es) hembed
          simp [hembed, this, hlen]

lemma docFilterRejects_falsy (docf : Option String)
    (hf : docf = none ∨ docf = some "") (s : String) :
    docFilterRejects docf s = false := by
  rcases hf with rfl | rfl <;> simp [docFilterRejects]

lemma collectResults_no_filter (meta : List (Nat × ChunkMeta)) (k : Nat)
    (docf : Option String) (hf : docf = none ∨ docf = some "") :
    ∀ (cands : List (ℚ × Int)) (acc : List SimChunk),
      collectResults meta docf k cands acc =
        collectResultsAll meta k cands acc := by
  intro cands
  induction cands with
  | nil => intro acc; rfl
  | cons p rest ih =>
    intro acc
    obtain ⟨dist, idx⟩ := p
    have hrej : ∀ s, docFilterRejects docf s = false :=
      docFilterRejects_falsy docf hf
    simp only [collectResults, collectResultsAll]
    by_cases hidx : idx = -1
    · simp [hidx, ih]
    · cases hm : lookupMeta meta idx with
      | none => simp [hidx, hm, ih]
      | some m => simp [hidx, hm, hrej, ih]

lemma sqDist_nonneg (q v : List ℚ) : 0 ≤ sqDist q v := by
  induction q generalizing v with
  | nil => simp [sqDist]
  | cons a as ih =>
    cases v with
    | nil => simp [sqDist]
    | cons b bs =>
      have h1 : (0:ℚ) ≤ (a - b)^2 := sq_nonneg _
      have h2 := ih bs
      simp only [sqDist, List.zipWith_cons_cons, List.sum_cons]
      simp only [sqDist] at h2
      exact add_nonneg h1 h2

lemma pairwise_replicate_of_rel {α : Type} (R : α → α → Prop) (n : Nat) (x : α)
    (h : R x x) : (List.replicate n x).Pairwise R := by
  induction n with
  | zero => exact List.Pairwise.nil
  | succ n ih =>
    rw [List.replicate_succ]
    exact List.Pairwise.cons
      (fun y hy => (List.eq_of_mem_replicate hy) ▸ h) ih

lemma faissSearch_cands_nonneg (vectors : List (List ℚ)) (q : List ℚ) (k : Nat) :
    ∀ p ∈ faissSearch vectors q k, p.2 ≠ -1 → 0 ≤ p.1 := by
  intro p hp hne
  simp only [faissSearch, List.mem_append] at hp
  rcases hp with h1 | h2
  · have hs := List.mem_of_mem_take h1
    have hm := ((List.perm_insertionSort _ _).mem_iff).mp hs
    obtain ⟨⟨i, v⟩, hmem, heq⟩ := List.mem_map.mp hm
    rw [← heq]
    exact sqDist_nonneg q v
  · rw [List.eq_of_mem_replicate h2] at hne
    exact absurd rfl hne

lemma faissSearch_pairwise (vectors : List (List ℚ)) (q : List ℚ) (k : Nat) :
    (faissSearch vectors q k).Pairwise
      (fun p p' => p.2 ≠ -1 → p'.2 ≠ -1 → p.1 ≤ p'.1) := by
  haveI htot : IsTotal (ℚ × Int) (fun a b => a.1 ≤ b.1) :=
    ⟨fun a b => le_total a.1 b.1⟩
  haveI htrans : IsTrans (ℚ × Int) (fun a b => a.1 ≤ b.1) :=
    ⟨fun a b c hab hbc => le_trans hab hbc⟩
  simp only [faissSearch]
  apply List.pairwise_append.mpr
  refine ⟨?_, ?_, ?_⟩
  · have hs := List.sorted_insertionSort (fun a b : ℚ × Int => a.1 ≤ b.1)
      (vectors.enum.map (fun p => (sqDist q p.2, (p.1 : Int))))
    exact ((hs.sublist (List.take_sublist _ _))).imp (fun h _ _ => h)
  · exact pairwise_replicate_of_rel _ _ _ (fun h _ => absurd rfl h)
  · intro a _ b hb
    rw [List.eq_of_mem_replicate hb]
    exact fun _ h => absurd rfl h

lemma collect_sorted (meta : List (Nat × ChunkMeta)) (docf : Option String)
    (k : Nat) :
    ∀ (cands : List (ℚ × Int)) (acc : List SimChunk),
      (∀ p ∈ cands, p.2 ≠ -1 → 0 ≤ p.1) →
      cands.Pairwise (fun p p' => p.2 ≠ -1 → p'.2 ≠ -1 → p.1 ≤ p'.1) →
      (∀ r ∈ acc, 0 < r.similarity ∧ r.similarity ≤ 1) →
      acc.Pairwise (fun a b => a.similarity ≤ b.similarity) →
      (∀ r ∈ acc, ∀ p ∈ cands, p.2 ≠ -1 → 1 / (1 + p.1) ≤ r.similarity) →
      (∀ r ∈ collectResults meta docf k cands acc,
          0 < r.similarity ∧ r.similarity ≤ 1) ∧
      (collectResults meta docf k cands acc).Pairwise
        (fun a b => b.similarity ≤ a.similarity) := by
  intro cands
  induction cands with
  | nil =>
    intro acc _ _ haccb haccp _
    constructor
    · intro r hr
      rw [show collectResults meta docf k [] acc = acc.reverse from rfl] at hr
      exact haccb r (List.mem_reverse.mp hr)
    · rw [show collectResults meta docf k [] acc = acc.reverse from rfl]
      rw [List.pairwise_reverse]
      exact haccp
  | cons p rest ih =>
    intro acc hnn hps haccb haccp hcross
    obtain ⟨dist, idx⟩ := p
    have hnn' : ∀ p ∈ rest, p.2 ≠ -1 → 0 ≤ p.1 :=
      fun p hp => hnn p (List.mem_cons_of_mem _ hp)
    have hps' := (List.pairwise_cons.mp hps).2
    have hhead := (List.pairwise_cons.mp hps).1
    have hcross' : ∀ r ∈ acc, ∀ p ∈ rest, p.2 ≠ -1 →
        1 / (1 + p.1) ≤ r.similarity :=
      fun r hr p hp => hcross r hr p (List.mem_cons_of_mem _ hp)
    simp only [collectResults]
    by_cases hidx : idx = -1
    · rw [if_pos hidx]
      exact ih acc hnn' hps' haccb haccp hcross'
    · rw [if_neg hidx]
      cases hm : lookupMeta meta idx with
      | none =>
        simp only [hm]
        exact ih acc hnn' hps' haccb haccp hcross'
      | some m =>
        simp only [hm]
        by_cases hrej : docFilterRejects docf m.document_id
        · rw [if_pos hrej]
          exact ih acc hnn' hps' haccb haccp hcross'
        · rw [if_neg hrej]
          have hd0 : 0 ≤ dist := hnn (dist, idx) (List.mem_cons_self _ _) hidx
          have hpos : (0:ℚ) < 1 + dist := by linarith
          have hsim_pos : 0 < 1 / (1 + dist) := by positivity
          have hsim_le : 1 / (1 + dist) ≤ 1 := by
            rw [div_le_one hpos]; linarith
          have hrb : ∀ r ∈ acc, 1 / (1 + dist) ≤ r.similarity :=
            fun r hr => hcross r hr (dist, idx) (List.mem_cons_self _ _) hidx
          set r0 : SimChunk :=
            { document_id := m.document_id
              chunk_id := m.chunk_id
              chunk_index := m.chunk_index
              text := m.text
              text_length := m.text_length
              token_count := m.token_count
              similarity := 1 / (1 + dist)
              distance := dist } with hr0
          have haccb2 : ∀ r ∈ r0 :: acc, 0 < r.similarity ∧ r.similarity ≤ 1 := by
            intro r hr
            rcases List.mem_cons.mp hr with rfl | hr'
            · exact ⟨hsim_pos, hsim_le⟩
            · exact haccb r hr'
          have haccp2 : (r0 :: acc).Pairwise
              (fun a b => a.similarity ≤ b.similarity) :=
            List.Pairwise.cons (fun b hb => hrb b hb) haccp
          by_cases hk : k ≤ (r0 :: acc).length
          · rw [if_pos hk]
            constructor
            · intro r hr
              exact haccb2 r (List.mem_reverse.mp hr)
            · rw [List.pairwise_reverse]
              exact haccp2
          · rw [if_neg hk]
            apply ih (r0 :: acc) hnn' hps' haccb2 haccp2
            intro r hr p hp hpne
            rcases List.mem_cons.mp hr with rfl | hr'
            · have hle : dist ≤ p.1 := hhead p hp hidx hpne
              have : 1 / (1 + p.1) ≤ 1 / (1 + dist) :=
                one_div_le_one_div_of_le hpos (by linarith)
              exact this
            · exact hcross' r hr' p hp hpne

lemma metaLoop_vectors_dim (docId : String) (start : Nat) :
    ∀ (chunks : List Chunk) (i : Nat) (st : FaissStore),
      ((metaLoop docId start i chunks st).2).vectors = st.vectors ∧
      ((metaLoop docId start i chunks st).2).dim = st.dim := by
  intro chunks
  induction chunks with
  | nil => intro i st; exact ⟨rfl, rfl⟩
  | cons c rest ih =>
    intro i st
    simp only [metaLoop]
    cases chunkMetaOf docId i c with
    | none => exact ⟨rfl, rfl⟩
    | some m => exact ih (i + 1) _

lemma metaLoop_meta_mono (docId : String) (start : Nat) :
    ∀ (chunks : List Chunk) (i : Nat) (st : FaissStore) (x : Nat × ChunkMeta),
      x ∈ st.metadata → x ∈ ((metaLoop docId start i chunks st).2).metadata := by
  intro chunks
  induction chunks with
  | nil => intro i st x hx; exact hx
  | cons c rest ih =>
    intro i st x hx
    simp only [metaLoop]
    cases chunkMetaOf docId i c with
    | none => exact hx
    | some m => exact ih (i + 1) _ x (List.mem_cons_of_mem _ hx)

lemma metaLoop_true_mem (docId : String) (start : Nat) :
    ∀ (chunks : List Chunk) (i : Nat) (st : FaissStore) (b : Bool)
      (st' : FaissStore), metaLoop docId start i chunks st = (b, st') →
      b = true → ∀ j < chunks.length, ∃ m, (start + i + j, m) ∈ st'.metadata := by
  intro chunks
  induction chunks with
  | nil =>
    intro i st b st' _ _ j hj
    exact absurd hj (by simp)
  | cons c rest ih =>
    intro i st b st' h hb j hj
    subst hb
    cases hcm : chunkMetaOf docId i c with
    | none =>
      simp only [metaLoop, hcm] at h
      injection h with h1 _
      cases h1
    | some m =>
      simp only [metaLoop, hcm] at h
      cases j with
      | zero =>
        have hmem : (start + i, m) ∈
            ((metaLoop docId start (i + 1) rest
              { st with metadata := (start + i, m) :: st.metadata }).2).metadata :=
          metaLoop_meta_mono docId start rest (i + 1) _ _
            (List.mem_cons_self _ _)
        rw [h] at hmem
        exact ⟨m, by simpa using hmem⟩
      | succ j' =>
        obtain ⟨m', hm'⟩ := ih (i + 1) _ true st' h rfl j'
          (by simp only [List.length_cons] at hj; omega)
        refine ⟨m', ?_⟩
        have heq : start + i + (j' + 1) = start + (i + 1) + j' := by omega
        rw [heq]
        exact hm'

lemma sentenceIssuesFor_eq_nil (embed : String → Option (List ℚ))
    (search : List ℚ → Nat → String → List SimChunk)
    (T : ℚ) (doc : String) (sentences : List String)
    (h : ∀ s ∈ sentences.take 10, 20 ≤ (pyStrip s).length →
      (embedFalsy (embed s) = true ∨
        ∀ l, embed s = some l → search l 3 doc = [])) :
    sentenceIssuesFor embed search T doc sentences = [] := by
  unfold sentenceIssuesFor
  have main : ∀ (l : List String) (acc : List SentenceIssue),
      (∀ s ∈ l, 20 ≤ (pyStrip s).length →
        (embedFalsy (embed s) = true ∨
          ∀ v, embed s = some v → search v 3 doc = [])) →
      l.foldl (sentenceStep embed search T doc) acc = acc := by
    intro l
    induction l with
    | nil => intro acc _; rfl
    | cons x xs ih =>
      intro acc hall
      rw [List.foldl_cons]
      rw [sentenceStep_skip embed search T doc acc x
        (hall x (List.mem_cons_self x xs))]
      exact ih acc (fun s hsmem => hall s (List.mem_cons_of_mem x hsmem))
  exact main (sentences.take 10) [] h

/-! ## Claims -/

/-- Claim C1: for every assessment that reaches the scoring stage (the
whole-summary embedding is truthy and the similarity search returned at least
one chunk), the result is valid exactly when the average similarity reaches
the threshold and the hallucination list is empty; and whenever the average
similarity is below the threshold, a `low_similarity` issue carrying that
threshold is in the list and the result is invalid. -/
theorem C1_scoring_validity (embed : String → Option (List ℚ))
    (search : List ℚ → Nat → String → List SimChunk)
    (T : ℚ) (doc text ty : String) (e : ℚ) (es : List ℚ)
    (c : SimChunk) (cs : List SimChunk)
    (he : embed text = some (e :: es))
    (hs : search (e :: es) 10 doc = c :: cs) :
    ((validate_summary embed search T doc text ty).valid = true ↔
      (T ≤ (validate_summary embed search T doc text ty).overall_similarity ∧
       (validate_summary embed search T doc text ty).hallucinations = [])) ∧
    ((validate_summary embed search T doc text ty).overall_similarity < T →
      (∃ sev d a, Issue.low_similarity sev d T a ∈
          (validate_summary embed search T doc text ty).hallucinations) ∧
      (validate_summary embed search T doc text ty).valid = false) := by
  rw [validate_summary_eq_score embed search T doc text ty e es c cs he hs]
  constructor
  · rw [score_valid]
    simp [List.isEmpty_iff]
  · intro hlt
    rw [score_hallucinations]
    constructor
    · refine ⟨(if (scoreSummary embed search T doc text ty (c :: cs)).overall_similarity < 1/2
          then "high" else "medium"),
        lowSimDesc ((scoreSummary embed search T doc text ty (c :: cs)).overall_similarity),
        (scoreSummary embed search T doc text ty (c :: cs)).overall_similarity, ?_⟩
      simp [lowSimIssues, hlt, mkLowSimIssue]
    · rw [score_valid]
      simp [not_le.mpr hlt]

/-- Witness for C1 at a concrete embedder, store and summary. -/
theorem C1_scoring_validity_witness :
    (validate_summary embedOne searchHigh (7/10) "doc-1" "Short." "overview").valid
      = true :=
  (C1_scoring_validity embedOne searchHigh (7/10) "doc-1" "Short." "overview"
    1 [] chunkHigh [] rfl rfl).1.mpr (by with_unfolding_all decide)

/-- Claim C2: when the whole-summary embedding is falsy, or the whole-summary
similarity search returns no chunks, the result is invalid, carries a
non-empty error message and has an empty hallucination list. -/
theorem C2_error_paths (embed : String → Option (List ℚ))
    (search : List ℚ → Nat → String → List SimChunk)
    (T : ℚ) (doc text ty : String)
    (h : embedFalsy (embed text) = true ∨
         ∀ e es, embed text = some (e :: es) → search (e :: es) 10 doc = []) :
    (validate_summary embed search T doc text ty).valid = false ∧
    (∃ msg, (validate_summary embed search T doc text ty).error = some msg ∧
      msg ≠ "") ∧
    (validate_summary embed search T doc text ty).hallucinations = [] := by
  have hemb : embFailMsg ≠ "" := by decide
  have hnc : noChunksMsg ≠ "" := by decide
  cases hembed : embed text with
  | none =>
    simp only [validate_summary, hembed]
    exact errorResult_spec _ hemb
  | some l =>
    cases l with
    | nil =>
      simp only [validate_summary, hembed]
      exact errorResult_spec _ hemb
    | cons e es =>
      rcases h with hf | hs
      · rw [hembed] at hf; simp [embedFalsy] at hf
      · have hse := hs e es hembed
        simp only [validate_summary, hembed, hse]
        exact errorResult_spec _ hnc

/-- Witness for C2 at an embedder whose provider call fails. -/
theorem C2_error_paths_witness :
    (validate_summary embedNone searchHigh (7/10) "doc-1" "Short."
        "overview").valid = false ∧
      (∃ msg, (validate_summary embedNone searchHigh (7/10) "doc-1" "Short."
        "overview").error = some msg ∧ msg ≠ "") ∧
      (validate_summary embedNone searchHigh (7/10) "doc-1" "Short."
        "overview").hallucinations = [] :=
  C2_error_paths embedNone searchHigh (7/10) "doc-1" "Short." "overview"
    (Or.inl rfl)

/-- Claim C3: the report's overall verdict is true exactly when every
validation result that was produced is valid; a granularity absent from the
input yields no result for that key (and vacuously does not affect the
verdict); the empty input yields a true verdict. -/
theorem C3_overall_valid (embed : String → Option (List ℚ))
    (search : List ℚ → Nat → String → List SimChunk)
    (T : ℚ) (doc : String) (summaries : Summaries) :
    ((validate_all_summaries embed search T doc summaries).overall_valid = true ↔
      ((∀ v, (validate_all_summaries embed search T doc summaries).overview_validation
          = some v → v.valid = true) ∧
       (∀ v, (validate_all_summaries embed search T doc summaries).bullets_validation
          = some v → v.valid = true) ∧
       (∀ v, (validate_all_summaries embed search T doc summaries).sections_validation
          = some v → v.valid = true))) ∧
    ((validate_all_summaries embed search T doc summaries).overview_validation = none
      ↔ summaries.overview = none) ∧
    ((validate_all_summaries embed search T doc summaries).bullets_validation = none
      ↔ summaries.bullets = none) ∧
    ((validate_all_summaries embed search T doc summaries).sections_validation = none
      ↔ summaries.sections = none) ∧
    (summaries = { overview := none, bullets := none, sections := none } →
      (validate_all_summaries embed search T doc summaries).overall_valid = true) := by
  obtain ⟨ov, bu, se⟩ := summaries
  cases ov <;> cases bu <;> cases se <;>
    simp [validate_all_summaries, Bool.and_eq_true, and_assoc]

/-- Witness for C3 at the empty summaries input. -/
theorem C3_overall_valid_witness :
    (validate_all_summaries embedOne searchHigh (7/10) "doc-1"
      { overview := none, bullets := none, sections := none }).overall_valid
      = true :=
  (C3_overall_valid embedOne searchHigh (7/10) "doc-1"
    { overview := none, bullets := none, sections := none }).2.2.2.2 rfl

/-- Claim C5 as stated is false on the code: at average similarity 0.42 and
threshold 0.7 the appended `low_similarity` issue has severity high and its
description contains the similarity rounded to two decimals, but the
description does not contain the threshold — the threshold is a separate key
of the issue, not part of the description string. -/
theorem C5_description_counterexample :
    (validate_summary embedOne searchLow (7/10) "doc-1" "Short."
        "overview").hallucinations =
      [Issue.low_similarity "high" (lowSimDesc (21/50)) (7/10) (21/50)] ∧
    lowSimDesc (21/50) =
      "Summary has low similarity (0.42) to original document" ∧
    strContains (lowSimDesc (21/50)) "0.42" = true ∧
    strContains (lowSimDesc (21/50)) "0.7" = false ∧
    (21/50 : ℚ) < 7/10 := by
  with_unfolding_all decide

/-- Claim C5 amended: whenever the scoring stage finds the average similarity
below the threshold, the first hallucination issue is a `low_similarity`
issue whose severity is high exactly when the average is below 0.5 (medium
otherwise), whose description contains the similarity rounded to two decimal
places, and which carries the threshold in its `threshold` field (the
description string itself does not contain the threshold). -/
theorem C5_low_similarity_issue (embed : String → Option (List ℚ))
    (search : List ℚ → Nat → String → List SimChunk)
    (T : ℚ) (doc text ty : String) (e : ℚ) (es : List ℚ)
    (c : SimChunk) (cs : List SimChunk)
    (he : embed text = some (e :: es))
    (hs : search (e :: es) 10 doc = c :: cs)
    (hlt : (validate_summary embed search T doc text ty).overall_similarity < T) :
    (validate_summary embed search T doc text ty).hallucinations.head? =
      some (Issue.low_similarity
        (if (validate_summary embed search T doc text ty).overall_similarity < 1/2
          then "high" else "medium")
        (lowSimDesc ((validate_summary embed search T doc text ty).overall_similarity))
        T
        ((validate_summary embed search T doc text ty).overall_similarity)) ∧
    strContains
      (lowSimDesc ((validate_summary embed search T doc text ty).overall_similarity))
      (formatFixed2 ((validate_summary embed search T doc text ty).overall_similarity))
      = true := by
  rw [validate_summary_eq_score embed search T doc text ty e es c cs he hs] at hlt ⊢
  refine ⟨?_, lowSimDesc_contains _⟩
  rw [score_hallucinations]
  simp [lowSimIssues, hlt, mkLowSimIssue]

/-- Witness for the amended C5 at the store with mean similarity 0.42. -/
theorem C5_low_similarity_issue_witness :
    (validate_summary embedOne searchLow (7/10) "doc-1" "Short."
        "overview").hallucinations.head? =
      some (Issue.low_similarity
        (if (validate_summary embedOne searchLow (7/10) "doc-1" "Short."
            "overview").overall_similarity < 1/2 then "high" else "medium")
        (lowSimDesc ((validate_summary embedOne searchLow (7/10) "doc-1" "Short."
          "overview").overall_similarity))
        (7/10)
        ((validate_summary embedOne searchLow (7/10) "doc-1" "Short."
          "overview").overall_similarity)) :=
  (C5_low_similarity_issue embedOne searchLow (7/10) "doc-1" "Short." "overview"
    1 [] chunkLowA [chunkLowB] rfl rfl (by with_unfolding_all decide)).1

/-- Claim C6 as stated is false on the code: the demonstration input does
split into exactly 3 sentences, but the third keeps its trailing question
mark, because a terminator at the end of the text is not followed by
whitespace and therefore never matches the split pattern. -/
theorem C6_split_counterexample :
    ¬ (((split_into_sentences demoSentText).length = 3) ∧
       ∀ s ∈ split_into_sentences demoSentText, endsWithTerm s = false) := by
  decide

/-- Claim C6 amended: the demonstration input yields exactly the 3 expected
sentences; the first two lose their terminators (consumed as delimiters) but
the final sentence retains its trailing question mark. -/
theorem C6_split_amended :
    split_into_sentences demoSentText =
      ["Policy covers fire damage", "It excludes flood damage",
       "What about wind?"] ∧
    endsWithTerm "What about wind?" = true := by
  exact ⟨rfl, rfl⟩

/-- Claim C10: during the sentence-level check, a sentence whose embedding is
falsy or whose similarity search returns no chunks is silently skipped: when
that happens to every retained sentence, the hallucination list is exactly
the whole-summary part (no `sentence_level` issue), the error field stays
unset, and validity is decided by the average similarity alone. -/
theorem C10_sentence_failures_skipped (embed : String → Option (List ℚ))
    (search : List ℚ → Nat → String → List SimChunk)
    (T : ℚ) (doc text ty : String) (e : ℚ) (es : List ℚ)
    (c : SimChunk) (cs : List SimChunk)
    (he : embed text = some (e :: es))
    (hs : search (e :: es) 10 doc = c :: cs)
    (hsent : ∀ s ∈ (split_into_sentences text).take 10,
      20 ≤ (pyStrip s).length →
        (embedFalsy (embed s) = true ∨
          ∀ l, embed s = some l → search l 3 doc = [])) :
    (validate_summary embed search T doc text ty).hallucinations =
      lowSimIssues T
        ((validate_summary embed search T doc text ty).overall_similarity) ∧
    (validate_summary embed search T doc text ty).error = none ∧
    ((validate_summary embed search T doc text ty).valid = true ↔
      T ≤ (validate_summary embed search T doc text ty).overall_similarity) := by
  rw [validate_summary_eq_score embed search T doc text ty e es c cs he hs]
  have hnil := sentenceIssuesFor_eq_nil embed search T doc
    (split_into_sentences text) hsent
  refine ⟨?_, score_error _ _ _ _ _ _ _, ?_⟩
  · rw [score_hallucinations, hnil]
    simp [sentenceLevelIssues]
  · rw [score_valid, score_hallucinations, hnil]
    simp only [sentenceLevelIssues, if_pos rfl, List.append_nil]
    by_cases hle : T ≤ (scoreSummary embed search T doc text ty
      (c :: cs)).overall_similarity
    · simp [hle, lowSimIssues, not_lt.mpr hle]
    · simp [hle, lowSimIssues]

/-- Witness for C10: the whole summary embeds, both sentences fail to embed,
and the result carries no sentence-level issue and no error. -/
theorem C10_sentence_failures_skipped_witness :
    (validate_summary embedSel searchHigh (7/10) "doc-1" c10Text
        "overview").hallucinations =
      lowSimIssues (7/10)
        ((validate_summary embedSel searchHigh (7/10) "doc-1" c10Text
          "overview").overall_similarity) ∧
    (validate_summary embedSel searchHigh (7/10) "doc-1" c10Text
        "overview").error = none ∧
    ((validate_summary embedSel searchHigh (7/10) "doc-1" c10Text
        "overview").valid = true ↔
      (7/10 : ℚ) ≤ (validate_summary embedSel searchHigh (7/10) "doc-1" c10Text
        "overview").overall_similarity) :=
  C10_sentence_failures_skipped embedSel searchHigh (7/10) "doc-1" c10Text
    "overview" 1 [] chunkHigh [] rfl rfl
    (by
      intro s hsmem _
      left
      have hsplit : (split_into_sentences c10Text).take 10 =
          ["First sentence is long enough here",
           "Second sentence is also long enough."] := by decide
      rw [hsplit] at hsmem
      simp only [List.mem_cons, List.mem_singleton, List.not_mem_nil,
        or_false] at hsmem
      rcases hsmem with rfl | rfl <;> decide)

/-- Claim C4: every similarity in a FAISS search result lies in the interval
(0, 1] and the result sequence is non-increasing in similarity, because each
similarity is 1 / (1 + d) for a non-negative squared-L2 distance d and the
candidates are consumed in ascending distance order. -/
theorem C4_search_similarity_sorted (st : FaissStore) (q : List ℚ) (k : Nat)
    (docf : Option String) :
    (∀ r ∈ searchFaiss st q k docf, 0 < r.similarity ∧ r.similarity ≤ 1) ∧
    (searchFaiss st q k docf).Pairwise
      (fun a b => b.similarity ≤ a.similarity) := by
  unfold searchFaiss
  by_cases hd : q.length ≠ st.dim
  · rw [if_pos hd]
    exact ⟨fun r hr => absurd hr (List.not_mem_nil r), List.Pairwise.nil⟩
  · rw [if_neg hd]
    exact collect_sorted st.metadata docf k _ []
      (faissSearch_cands_nonneg st.vectors q (k * 2))
      (faissSearch_pairwise st.vectors q (k * 2))
      (by intro r hr; cases hr)
      List.Pairwise.nil
      (by intro r hr; cases hr)

/-- Claim C7: an insert in which some vector's length differs from the
configured dimension fails — either the chunks/embeddings length check raises
ValueError, or the conversion and the index's own dimension check raise
inside the try block (reported as a False return) — and in every such case
the store state is unchanged, so no mismatched vector is ever stored,
truncated or padded. -/
theorem C7_dim_mismatch_rejected (st : FaissStore) (docId : String)
    (chunks : List Chunk) (embs : List (List ℚ))
    (h : ∃ v ∈ embs, v.length ≠ st.dim) :
    add_embeddings st docId chunks embs = Except.error lenMismatchMsg ∨
    add_embeddings st docId chunks embs = Except.ok (false, st) := by
  unfold add_embeddings
  by_cases hlen : chunks.length ≠ embs.length
  · left; rw [if_pos hlen]
  · right
    rw [if_neg hlen]
    obtain ⟨v, hv, hne⟩ := h
    cases embs with
    | nil => cases hv
    | cons v0 rest =>
      simp only [add_to_faiss]
      by_cases hrag : rest.any (fun w => w.length ≠ v0.length)
      · rw [if_pos hrag]
      · have hall : ∀ w ∈ rest, w.length = v0.length := by
          intro w hw
          by_contra hcon
          have : rest.any (fun w => w.length ≠ v0.length) = true :=
            List.any_eq_true.mpr ⟨w, hw, by simpa using hcon⟩
          exact hrag this
        have hv0 : v0.length ≠ st.dim := by
          rcases List.mem_cons.mp hv with rfl | hvr
          · exact hne
          · rw [← hall v hvr]; exact hne
        rw [if_neg hrag, if_pos hv0]

/-- Witness for C7: inserting a 1-dimensional vector into the 2-dimensional
store fails with the state unchanged. -/
theorem C7_dim_mismatch_rejected_witness :
    add_embeddings stEmpty2 "doc-1" [chGood] [[1]] =
        Except.error lenMismatchMsg ∨
      add_embeddings stEmpty2 "doc-1" [chGood] [[1]] =
        Except.ok (false, stEmpty2) :=
  C7_dim_mismatch_rejected stEmpty2 "doc-1" [chGood] [[1]]
    ⟨[1], by simp, by decide⟩

/-- Claim C8 as stated is false on the code: an insert whose second chunk
dictionary is missing the required `text` key fails (returns False), yet it
leaves partial state — both vectors of the call were already added to the
index and the first chunk's metadata was recorded — and a subsequent search
observes that partial state. -/
theorem C8_atomicity_counterexample :
    add_embeddings stEmpty2 "doc-1" [chGood, chBad] [[1, 0], [0, 1]] =
      Except.ok (false, st8) ∧
    st8 ≠ stEmpty2 ∧
    searchFaiss st8 [1, 0] 1 none =
      [{ document_id := "doc-1", chunk_id := "c0", chunk_index := 0,
         text := "alpha chunk text", text_length := 16, token_count := 0,
         similarity := 1, distance := 0 }] := by
  refine ⟨by with_unfolding_all rfl, by with_unfolding_all decide,
    by with_unfolding_all rfl⟩

/-- Claim C8 amended: a successful insert records all pairs of the call (the
vectors are appended and a metadata entry exists for every chunk position);
a failure occurring before the vectors are added (length mismatch, empty,
ragged or wrongly-dimensioned batch) leaves the state unchanged, but a
failure inside the metadata loop leaves all of the call's vectors appended
with metadata only for the chunks preceding the failure — partial state that
subsequent searches can observe. -/
theorem C8_insert_atomicity_amended (st : FaissStore) (docId : String)
    (chunks : List Chunk) (embs : List (List ℚ)) (b : Bool) (st' : FaissStore)
    (h : add_embeddings st docId chunks embs = Except.ok (b, st')) :
    st'.dim = st.dim ∧
    (st'.vectors = st.vectors ∨ st'.vectors = st.vectors ++ embs) ∧
    (b = true → st'.vectors = st.vectors ++ embs ∧
      ∀ j < chunks.length, ∃ m, (st.vectors.length + j, m) ∈ st'.metadata) := by
  unfold add_embeddings at h
  by_cases hlen : chunks.length ≠ embs.length
  · rw [if_pos hlen] at h; cases h
  · rw [if_neg hlen] at h
    have hadd : add_to_faiss st docId chunks embs = (b, st') := by
      injection h
    clear h
    cases embs with
    | nil =>
      rw [show add_to_faiss st docId chunks [] = (false, st) from rfl] at hadd
      injection hadd with hb hst
      subst hb; subst hst
      exact ⟨rfl, Or.inl rfl, fun hbt => by cases hbt⟩
    | cons v0 rest =>
      simp only [add_to_faiss] at hadd
      by_cases hrag : rest.any (fun w => w.length ≠ v0.length)
      · rw [if_pos hrag] at hadd
        injection hadd with hb hst
        subst hb; subst hst
        exact ⟨rfl, Or.inl rfl, fun hbt => by cases hbt⟩
      · rw [if_neg hrag] at hadd
        by_cases hdim : v0.length ≠ st.dim
        · rw [if_pos hdim] at hadd
          injection hadd with hb hst
          subst hb; subst hst
          exact ⟨rfl, Or.inl rfl, fun hbt => by cases hbt⟩
        · rw [if_neg hdim] at hadd
          have hpair := metaLoop_vectors_dim docId st.vectors.length chunks 0
            { st with vectors := st.vectors ++ v0 :: rest }
          rw [hadd] at hpair
          refine ⟨hpair.2, Or.inr hpair.1, fun hbt => ⟨hpair.1, ?_⟩⟩
          intro j hj
          have hm := metaLoop_true_mem docId st.vectors.length chunks 0
            { st with vectors := st.vectors ++ v0 :: rest } b st' hadd hbt j hj
          obtain ⟨m, hmem⟩ := hm
          exact ⟨m, by simpa using hmem⟩

/-- Witness for the amended C8: a successful single-chunk insert appends the
vector and records the chunk's metadata. -/
theorem C8_insert_atomicity_amended_witness :
    stG.dim = stEmpty2.dim ∧
    (stG.vectors = stEmpty2.vectors ∨
      stG.vectors = stEmpty2.vectors ++ [[1, 0]]) ∧
    (true = true → stG.vectors = stEmpty2.vectors ++ [[1, 0]] ∧
      ∀ j < ([chGood] : List Chunk).length,
        ∃ m, (stEmpty2.vectors.length + j, m) ∈ stG.metadata) :=
  C8_insert_atomicity_amended stEmpty2 "doc-1" [chGood] [[1, 0]] true stG
    (by with_unfolding_all rfl)

/-- Claim C9: when the `document_id` argument of a FAISS search is `None` or
the empty string it is falsy, so the document filter clause is skipped
entirely and the search behaves exactly like the search with the filter
removed — results may come from any stored document. -/
theorem C9_falsy_filter_ignored (st : FaissStore) (q : List ℚ) (k : Nat) :
    searchFaiss st q k none = searchFaissUnfiltered st q k ∧
    searchFaiss st q k (some "") = searchFaissUnfiltered st q k := by
  constructor <;>
  · unfold searchFaiss searchFaissUnfiltered
    by_cases hd : q.length ≠ st.dim
    · simp [hd]
    · simp only [if_neg hd]
      first
        | exact collectResults_no_filter _ _ _ (Or.inl rfl) _ _
        | exact collectResults_no_filter _ _ _ (Or.inr rfl) _ _

end PolicyQA
